import Mathlib

/-!
Verification of the `option_like` macro's generated code, embedded at the
test instantiation `Cached<T> { Hit(T), Miss }` (`is_some => is_hit`,
`is_none => is_miss`), which is the spec's concrete scenario and exercises
every generated item. Each generated method is translated directly from
the macro body in `src/lib.rs`; the divergent extractors (`unwrap`,
`expect`) are modelled as `Except String` so the fatal diagnostic is
observable.
-/

namespace OptionLike

/-- The enum emitted by `option_like!` for the instantiation
`enum Cached<T> { Hit(T), Miss }` (present variant `Hit` declared first,
absent variant `Miss` second, exactly as the macro expands). -/
inductive Cached (T : Type) where
  | Hit : T → Cached T
  | Miss : Cached T
  deriving DecidableEq, Repr

/-- Generated predicate `is_hit` (macro metavariable `$is_some`):
matches `$some(_) => true, $none => false`. -/
def Cached.is_hit {T : Type} : Cached T → Bool
  | .Hit _ => true
  | .Miss => false

/-- Generated predicate `is_miss` (macro metavariable `$is_none`):
matches `$some(_) => false, $none => true`. -/
def Cached.is_miss {T : Type} : Cached T → Bool
  | .Hit _ => false
  | .Miss => true

/-- Generated `map`: `$some(x) => $some(f(x)), $none => $none`. -/
def Cached.map {T U : Type} (self : Cached T) (f : T → U) : Cached U :=
  match self with
  | .Hit x => .Hit (f x)
  | .Miss => .Miss

/-- The string produced by `stringify!` inside `unwrap_failed`:
`stringify!` turns the whole argument token stream — the quoted pieces,
the commas, and the two identifiers `$name` and `$none` — into one string
literal, so the quote characters and separating commas appear verbatim in
the panic message. Parametrised by the two identifiers' spellings. -/
def unwrap_failed_msg (name noneName : String) : String :=
  "\"called `\", " ++ name ++ ", \"::unwrap()` on a `\", " ++ noneName ++ ", \"` value\""

/-- Generated `unwrap`: returns the payload of `$some`, and on `$none`
calls the diverging `unwrap_failed()`, whose panic payload is the
`stringify!` message above with `$name = Cached`, `$none = Miss`.
Divergence is modelled as `Except.error` carrying that message. -/
def Cached.unwrap {T : Type} : Cached T → Except String T
  | .Hit val => .ok val
  | .Miss => .error (unwrap_failed_msg ("Cached") ("Miss"))

/-- The message carried by the generated `expect_failed(msg)`:
`panic!("{}", msg)` panics with exactly the caller's `msg`. -/
def expect_failed (msg : String) : String := msg

/-- Generated `expect`: returns the payload of `$some`, and on `$none`
calls the diverging `expect_failed(msg)`, modelled as `Except.error`. -/
def Cached.expect {T : Type} (self : Cached T) (msg : String) : Except String T :=
  match self with
  | .Hit val => .ok val
  | .Miss => .error (expect_failed msg)

/-- Generated `unwrap_or_default` (requires `T: Default`, modelled by
`Inhabited`): `$some(x) => x, $none => T::default()`. -/
def Cached.unwrap_or_default {T : Type} [Inhabited T] : Cached T → T
  | .Hit x => x
  | .Miss => (Inhabited.default : T)

/-- Generated `unwrap_or_else` with a zero-argument closure `f`:
`$some(x) => x, $none => f()`. -/
def Cached.unwrap_or_else {T : Type} (self : Cached T) (f : Unit → T) : T :=
  match self with
  | .Hit x => x
  | .Miss => f ()

/-- Generated `impl From<Option<T>> for Cached<T>`:
`Some(inner) => $some(inner), None => $none`. -/
def Cached.fromOption {T : Type} : Option T → Cached T
  | some inner => .Hit inner
  | none => .Miss

/-- Generated `impl From<Cached<T>> for Option<T>`:
`$some(inner) => Some(inner), $none => None`. -/
def Cached.toOption {T : Type} : Cached T → Option T
  | .Hit inner => some inner
  | .Miss => none

/-- The comparison emitted by Rust's `derive(Ord)` for the generated enum:
variants compare by declaration order first (`Hit` is declared before
`Miss`, so every `Hit` is less than `Miss`), then payloads compare by the
payload comparison. -/
def Cached.cmp {T : Type} (cmpT : T → T → Ordering) : Cached T → Cached T → Ordering
  | .Hit a, .Hit b => cmpT a b
  | .Hit _, .Miss => .lt
  | .Miss, .Hit _ => .gt
  | .Miss, .Miss => .eq

/-- The comparison of Rust's `derive(Ord)` on the standard
`Option<T> { None, Some(T) }`, where `None` is declared first and hence
sorts below every `Some`. -/
def optionCmp {T : Type} (cmpT : T → T → Ordering) : Option T → Option T → Ordering
  | none, none => .eq
  | none, some _ => .lt
  | some _, none => .gt
  | some a, some b => cmpT a b

/-- The `Default` impl emitted by `derive(Default)` with the `#[default]`
attribute on the `Miss` variant: `default()` yields `Miss` (the derive
constrains `T: Default`, modelled by `[Inhabited T]`). -/
instance instInhabitedCached {T : Type} [Inhabited T] : Inhabited (Cached T) :=
  ⟨Cached.Miss⟩

/-- Counts how many times an instrumented function was applied inside a
mapped value: each application of `fun t => (f t, 1)` leaves one tally of
`1` in the payload it produced, so the total tally in the result equals
the number of invocations. Verification harness for the call-count
properties. -/
def Cached.tally {U : Type} : Cached (U × Nat) → Nat
  | .Hit p => p.2
  | .Miss => 0

end OptionLike

namespace OptionLike

/-- C1: for every payload `v`, converting through the universal optional
type and back is the identity on both variants: `from(Option::from(Hit v))
= Hit v` and `from(Option::from(Miss)) = Miss`; both conversions are total
Lean functions by construction. -/
theorem c1_roundtrip_generated (T : Type) (v : T) :
    Cached.fromOption (Cached.toOption (Cached.Hit v)) = Cached.Hit v ∧
    Cached.fromOption (Cached.toOption (Cached.Miss : Cached T)) = Cached.Miss := by
  exact ⟨rfl, rfl⟩

/-- C3: `unwrap` on `Hit v` returns `v`; on `Miss` it never returns
normally (it produces the error outcome), and the diagnostic it carries
contains both the generated type's name `Cached` and the absent variant's
name `Miss` as substrings, exhibited by explicit splittings of the
message. -/
theorem c3_unwrap (T : Type) (v : T) :
    (Cached.Hit v).unwrap = Except.ok v ∧
    (Cached.Miss : Cached T).unwrap = Except.error (unwrap_failed_msg ("Cached") ("Miss")) ∧
    (¬ ∃ w : T, (Cached.Miss : Cached T).unwrap = Except.ok w) ∧
    (∃ s1 s2, unwrap_failed_msg ("Cached") ("Miss") = s1 ++ "Cached" ++ s2) ∧
    (∃ s1 s2, unwrap_failed_msg ("Cached") ("Miss") = s1 ++ "Miss" ++ s2) := by
  refine ⟨rfl, rfl, ?_, ⟨"\"called `\", ", ", \"::unwrap()` on a `\", Miss, \"` value\"", by rfl⟩,
    ⟨"\"called `\", Cached, \"::unwrap()` on a `\", ", ", \"` value\"", by rfl⟩⟩
  rintro ⟨w, hw⟩
  exact Except.noConfusion hw

/-- C4: `expect` on `Hit v` returns `v` for every message; on `Miss` it
fails carrying exactly the caller-supplied message, nothing added:
the error payload equals `msg` itself. -/
theorem c4_expect (T : Type) (v : T) (msg : String) :
    (Cached.Hit v).expect msg = Except.ok v ∧
    (Cached.Miss : Cached T).expect msg = Except.error msg ∧
    expect_failed msg = msg := by
  exact ⟨rfl, rfl, rfl⟩

/-- C5: `map` sends `Hit v` to `Hit (f v)` and `Miss` to `Miss`; the
instrumented tally shows `f` is applied exactly once in the present case
and zero times in the absent case, and the absent result does not depend
on `f` at all (so `f` is never invoked there). -/
theorem c5_map (T U : Type) (v : T) (f : T → U) :
    (Cached.Hit v).map f = Cached.Hit (f v) ∧
    (Cached.Miss : Cached T).map f = Cached.Miss ∧
    Cached.tally ((Cached.Hit v).map (fun t => (f t, 1))) = 1 ∧
    Cached.tally ((Cached.Miss : Cached T).map (fun t => (f t, 1))) = 0 ∧
    (∀ g : T → U, (Cached.Miss : Cached T).map f = (Cached.Miss : Cached T).map g) := by
  exact ⟨rfl, rfl, rfl, rfl, fun _ => rfl⟩

/-- C6: `is_hit` is true exactly on `Hit` and `is_miss` true exactly on
`Miss`, and on every value `is_miss` is the boolean complement of
`is_hit`; both are total pure functions by construction. -/
theorem c6_predicates (T : Type) (v : T) :
    (Cached.Hit v).is_hit = true ∧
    (Cached.Hit v).is_miss = false ∧
    (Cached.Miss : Cached T).is_hit = false ∧
    (Cached.Miss : Cached T).is_miss = true ∧
    (∀ c : Cached T, c.is_miss = !c.is_hit) := by
  refine ⟨rfl, rfl, rfl, rfl, fun c => ?_⟩
  cases c <;> rfl

/-- C7: `unwrap_or_else` on `Hit v` returns `v` and its result does not
depend on the supplied closure (so the closure is never invoked); on
`Miss` it returns exactly the closure's result `f ()`. It is a total Lean
function, so it never fails. -/
theorem c7_unwrap_or_else (T : Type) (v : T) (f : Unit → T) :
    (Cached.Hit v).unwrap_or_else f = v ∧
    (Cached.Miss : Cached T).unwrap_or_else f = f () ∧
    (∀ g : Unit → T, (Cached.Hit v).unwrap_or_else f = (Cached.Hit v).unwrap_or_else g) := by
  exact ⟨rfl, rfl, fun _ => rfl⟩

/-- C8: for a payload type with a default value, `unwrap_or_default` on
`Hit v` returns `v` and on `Miss` returns the payload type's default; it
is a total Lean function, so it never fails. -/
theorem c8_unwrap_or_default (T : Type) [Inhabited T] (v : T) :
    (Cached.Hit v).unwrap_or_default = v ∧
    (Cached.Miss : Cached T).unwrap_or_default = (Inhabited.default : T) := by
  exact ⟨rfl, rfl⟩

/-- C9: with `#[default]` on the absent variant `Miss`, the derived
produce-default operation on `Cached<T>` (available when the payload has a
default) yields the absent variant: the default value is `Miss`, it
satisfies `is_miss`, and it converts to the empty optional. -/
theorem c9_default_is_miss (T : Type) [Inhabited T] :
    (Inhabited.default : Cached T) = Cached.Miss ∧
    (Inhabited.default : Cached T).is_miss = true ∧
    Cached.toOption (Inhabited.default : Cached T) = (none : Option T) := by
  exact ⟨rfl, rfl, rfl⟩

/-- C10: for every universal optional value, converting to the generated
type and back is the identity, and together with the other direction the
two conversions form a bijection between `Cached T` and `Option T`. -/
theorem c10_roundtrip_optional (T : Type) (o : Option T) :
    Cached.toOption (Cached.fromOption o) = o ∧
    (∀ c : Cached T, Cached.fromOption (Cached.toOption c) = c) := by
  constructor
  · cases o <;> rfl
  · intro c; cases c <;> rfl

/-- C2 fails on the code: the macro declares the present variant `Hit`
before the absent variant `Miss`, so the derived ordering sorts `Miss`
above every `Hit v` — `cmp Miss (Hit 0) = gt`, not `lt` — whereas the
standard optional type's derived ordering gives `cmp none (some 0) = lt`.
The generated ordering therefore does not match the universal optional
type's convention, contradicting the spec and the crate's stated intent
of behaving like the standard optional type. -/
theorem c2_ord_mismatch :
    Cached.cmp (compare : Nat → Nat → Ordering) Cached.Miss (Cached.Hit 0) = Ordering.gt ∧
    Cached.cmp (compare : Nat → Nat → Ordering) Cached.Miss (Cached.Hit 0) ≠ Ordering.lt ∧
    optionCmp (compare : Nat → Nat → Ordering) none (some 0) = Ordering.lt ∧
    (∀ v : Nat, Cached.cmp (compare : Nat → Nat → Ordering) Cached.Miss (Cached.Hit v) = Ordering.gt) := by
  exact ⟨rfl, by decide, rfl, fun _ => rfl⟩

end OptionLike
